import Mathlib

/-!
# Verification of the soniox-compare provider-adapter core

Shallow embedding of the data model, capability validation, per-provider
adapter operations (connect / send / send_end / receive / disconnect) and the
session orchestrator loops of the soniox-compare repository, together with
theorems settling the frozen claims about them.

Conventions of the embedding:
* Python exceptions become explicit error values (`VErr`); a function that can
  raise returns `Except VErr _` or pairs its result state with `Option VErr`.
* `asyncio.Queue` becomes a `List` (front = oldest element); `put_nowait` on a
  queue of `maxsize=100` fails exactly when the list already has 100 elements.
* Vendor-supplied seconds are modelled as `Rat` (they are never actually
  multiplied on any reachable path of the claims below).
* Mutation of a field becomes a functional state update; object identity
  questions (the `deepcopy` in `get_provider_config`) are modelled by giving
  every adapter its own cell in a session store.
-/

namespace SC

/-- `providers/config.py` `FeatureState` (`PARTLY` renders the source's third
enum member, whose name collides with a Lean keyword). -/
inductive FeatureState where
  | SUPPORTED
  | UNSUPPORTED
  | PARTLY
deriving DecidableEq

/-- `providers/config.py` `FeatureStatus`. -/
structure FeatureStatus where
  state : FeatureState
  comment : String := ""
deriving DecidableEq

/-- `FeatureStatus.supported(comment="")`. -/
def featureSupported (comment : String := "") : FeatureStatus :=
  { state := .SUPPORTED, comment := comment }

/-- `FeatureStatus.unsupported(comment="")`. -/
def featureUnsupported (comment : String := "") : FeatureStatus :=
  { state := .UNSUPPORTED, comment := comment }

/-- `FeatureStatus.partial(comment="")`. -/
def featurePartly (comment : String := "") : FeatureStatus :=
  { state := .PARTLY, comment := comment }

/-- `providers/config.py` `SupportedFeatures`: the capability matrix of one
provider, 13 named capabilities. -/
structure SupportedFeatures where
  name : String
  model : String
  single_multilingual_model : FeatureStatus
  language_hints : FeatureStatus
  language_identification : FeatureStatus
  speaker_diarization : FeatureStatus
  customization : FeatureStatus
  timestamps : FeatureStatus
  confidence_scores : FeatureStatus
  translation_one_way : FeatureStatus
  translation_two_way : FeatureStatus
  real_time_latency_config : FeatureStatus
  endpoint_detection : FeatureStatus
  manual_finalization : FeatureStatus
deriving DecidableEq

/-- `OperationMode = Literal["stt", "mt"]`. -/
inductive OperationMode where
  | stt
  | mt
deriving DecidableEq

/-- `providers/config.py` `TranslationConfig`. -/
structure TranslationConfig where
  target_language : String := "en"
  source_languages : List String := ["*"]
  language_a : Option String := none
  language_b : Option String := none
  type : String := "one_way"
deriving DecidableEq

/-- `providers/config.py` `ProviderParams`. -/
structure ProviderParams where
  mode : OperationMode := .stt
  language_hints : List String := []
  context : String := ""
  enable_speaker_diarization : Bool := true
  enable_language_identification : Bool := true
  enable_endpoint_detection : Bool := true
  translation : Option TranslationConfig := some {}
deriving DecidableEq

/-- `providers/config.py` `ServiceConfig`. -/
structure ServiceConfig where
  provider_name : String
  api_key : String := ""
  websocket_url : String := ""
  model : String := ""
  credentials_fn : String := ""
  region : String := ""
  project_id : String := ""
  prompt : String := ""
  recognizer_id : String := ""
deriving DecidableEq

/-- `providers/config.py` `CommonConfig`. -/
structure CommonConfig where
  audio_format : String := "pcm_s16le"
  sample_rate : Nat := 16000
  num_channels : Nat := 1
deriving DecidableEq

/-- `providers/config.py` `ProviderConfig`. -/
structure ProviderConfig where
  params : ProviderParams
  service : ServiceConfig
  common : CommonConfig := {}
deriving DecidableEq

/-- Python exceptions relevant to the embedded code.  `providerError` is
`ProviderError(message)` from `providers/base_provider.py`; the other
constructors model the built-in exceptions the embedded code can raise. -/
inductive VErr where
  | providerError (message : String)
  | attrError
  | typeError
  | keyError
  | valueError (message : String)
deriving DecidableEq

/-- `str(ex)`: for `ProviderError` this is its message
(`Exception.__init__(message)`). -/
def VErr.str : VErr → String
  | .providerError m => m
  | .attrError => "AttributeError"
  | .typeError => "TypeError"
  | .keyError => "KeyError"
  | .valueError m => m

/-- The evaluation of `config.params.translation.type` in
`validate_capabilities`, guarded by the short-circuiting
`config.params.mode == "mt" and ...`: `translation.type` is read only when the
mode is `mt`, and reading it on `None` is an `AttributeError`. -/
def rule2Condition (params : ProviderParams) : Except VErr Bool :=
  if params.mode = .mt then
    match params.translation with
    | some t => .ok (t.type = "two_way")
    | none => .error .attrError
  else
    .ok false

/-- `providers/base_provider.py` `validate_capabilities(features, config,
provider)`: the shared five-rule capability validation, transcribed
if-by-if. -/
def validate_capabilities (features : SupportedFeatures) (params : ProviderParams)
    (provider : String) : Except VErr Unit :=
  if params.mode = .mt ∧ features.translation_one_way.state = .UNSUPPORTED then
    .error (.providerError s!"Machine translation is not supported by {provider}.")
  else
    match rule2Condition params with
    | .error e => .error e
    | .ok c2 =>
      if c2 ∧ ¬ features.translation_two_way.state = .SUPPORTED then
        .error (.providerError s!"Two way machine translation is not supported by {provider}.")
      else if params.enable_speaker_diarization ∧
          features.speaker_diarization.state = .UNSUPPORTED then
        .error (.providerError s!"Speaker diarization not supported by {provider}.")
      else if params.enable_language_identification ∧
          features.language_identification.state = .UNSUPPORTED then
        .error (.providerError s!"Language identification not supported by {provider}.")
      else if params.enable_endpoint_detection ∧
          features.endpoint_detection.state = .UNSUPPORTED then
        .error (.providerError s!"Endpoint detection not supported by {provider}.")
      else
        .ok ()

/-- `providers/azure/provider.py` `AzureProvider._validate_capabilities_helper`:
Azure's own validation used by its `connect()`.  It has four rules: the shared
rule (1); a rule restricting speaker diarization to `stt` mode; and the shared
rules (4) and (5).  It has no two-way-translation rule. -/
def azure_validate_capabilities_helper (features : SupportedFeatures)
    (params : ProviderParams) (provider : String) : Except VErr Unit :=
  if params.mode = .mt ∧ features.translation_one_way.state = .UNSUPPORTED then
    .error (.providerError s!"Machine translation is not supported by {provider}.")
  else if params.enable_speaker_diarization ∧ ¬ params.mode = .stt then
    .error (.providerError ("Azure only supports speaker diarization in 'stt' mode." ++
      "\n[Click here to read more.](https://learn.microsoft.com/en-us/azure/ai-services/speech-service/get-started-stt-diarization?tabs=linux&pivots=programming-language-python)"))
  else if params.enable_language_identification ∧
      features.language_identification.state = .UNSUPPORTED then
    .error (.providerError s!"Language identification not supported by {provider}.")
  else if params.enable_endpoint_detection ∧
      features.endpoint_detection.state = .UNSUPPORTED then
    .error (.providerError s!"Endpoint detection not supported by {provider}.")
  else
    .ok ()

/-- The five capability rules of spec §4.3, in their fixed order. -/
inductive CapRule where
  | oneWayTranslation
  | twoWayTranslation
  | diarization
  | languageIdentification
  | endpointDetection
deriving DecidableEq

/-- Spec-side reading of one rule of §4.3 (written from the spec's sentence,
for the refinement comparison with `validate_capabilities`):
(1) translation requested but one-way translation unsupported; (2) two-way
translation requested but unsupported; (3) diarization requested but
unsupported; (4) language identification requested but unsupported;
(5) endpoint detection requested but unsupported. -/
def specRuleViolated (features : SupportedFeatures) (params : ProviderParams) :
    CapRule → Bool
  | .oneWayTranslation =>
    decide (params.mode = .mt ∧
      features.translation_one_way.state = .UNSUPPORTED)
  | .twoWayTranslation =>
    decide (params.mode = .mt ∧
      params.translation.map TranslationConfig.type = some "two_way" ∧
      features.translation_two_way.state ≠ .SUPPORTED)
  | .diarization =>
    decide (params.enable_speaker_diarization = true ∧
      features.speaker_diarization.state = .UNSUPPORTED)
  | .languageIdentification =>
    decide (params.enable_language_identification = true ∧
      features.language_identification.state = .UNSUPPORTED)
  | .endpointDetection =>
    decide (params.enable_endpoint_detection = true ∧
      features.endpoint_detection.state = .UNSUPPORTED)

/-- Spec-side: the first violated rule of §4.3, in the fixed order. -/
def specFirstViolated (features : SupportedFeatures) (params : ProviderParams) :
    Option CapRule :=
  [CapRule.oneWayTranslation, CapRule.twoWayTranslation, CapRule.diarization,
    CapRule.languageIdentification, CapRule.endpointDetection].find?
    (specRuleViolated features params)

/-- The distinct human-readable error each violated rule produces. -/
def specRuleError (provider : String) : CapRule → String
  | .oneWayTranslation => s!"Machine translation is not supported by {provider}."
  | .twoWayTranslation => s!"Two way machine translation is not supported by {provider}."
  | .diarization => s!"Speaker diarization not supported by {provider}."
  | .languageIdentification => s!"Language identification not supported by {provider}."
  | .endpointDetection => s!"Endpoint detection not supported by {provider}."

/-- `SonioxProvider.get_available_features()`. -/
def sonioxFeatures : SupportedFeatures :=
  { name := "Soniox"
    model := "stt-rt-preview"
    single_multilingual_model := featureSupported
    language_hints := featureSupported
    language_identification := featureSupported
    speaker_diarization := featureSupported
    customization := featureSupported
    timestamps := featureSupported
    confidence_scores := featureSupported
    translation_one_way := featureSupported
    translation_two_way := featureSupported
    real_time_latency_config := featureSupported
    endpoint_detection := featureSupported
    manual_finalization := featureSupported }

/-- `AzureProvider.get_available_features()` (comments abridged to their first
sentence where long; only `state` is ever read by validation). -/
def azureFeatures : SupportedFeatures :=
  { name := "Azure"
    model := "en-US-Conversation"
    single_multilingual_model := featureUnsupported
    language_hints := featureUnsupported
    language_identification := featurePartly
    speaker_diarization := featurePartly
    customization := featureSupported
    timestamps := featureSupported
    confidence_scores := featureSupported
    translation_one_way := featureSupported
    translation_two_way := featureUnsupported
    real_time_latency_config := featureSupported
    endpoint_detection := featureSupported "Either based on timeouts or based on semantic segmentation - look for Semantic segmentation."
    manual_finalization := featureUnsupported }

/-- `DeepgramProvider.get_available_features()` (comments abridged). -/
def deepgramFeatures : SupportedFeatures :=
  { name := "Deepgram"
    model := "nova-3"
    single_multilingual_model := featureSupported
    language_hints := featureUnsupported
    language_identification := featureUnsupported "Not for streaming, only for prerecorded."
    speaker_diarization := featureSupported
    customization := featureSupported
    timestamps := featureSupported
    confidence_scores := featureSupported
    translation_one_way := featureUnsupported
    translation_two_way := featureUnsupported
    real_time_latency_config := featureUnsupported
    endpoint_detection := featureSupported "Endpoint detection based on pre-determined silence duration."
    manual_finalization := featureSupported }

/-- A speaker value in a `Part`: vendor speaker ids are ints, but
`DeepgramProvider._recv_loop` can also place the literal string `"UNKNOWN"`
(the default of `word.get("speaker", "UNKNOWN")`). -/
inductive SpeakerVal where
  | int (n : Int)
  | str (s : String)
deriving DecidableEq

/-- One atomic transcript/translation fragment, as produced by
`utils.make_part`. -/
structure Part where
  text : String
  is_final : Bool := true
  speaker : Option SpeakerVal := none
  language : Option String := none
  translation_status : Option String := none
  confidence : Option Rat := some 1
  start_ms : Option Int := none
  end_ms : Option Int := none
deriving DecidableEq

/-- `make_part(...)` of `utils.py` (defaults as in the source; callers pass
explicit values for the fields they set). -/
def make_part (text : String) (is_final : Bool := true)
    (speaker : Option SpeakerVal := none) (language : Option String := none)
    (start_ms : Option Int := none) (end_ms : Option Int := none)
    (confidence : Option Rat := some 1)
    (translation_status : Option String := none) : Part :=
  { text := text, is_final := is_final, speaker := speaker, language := language,
    translation_status := translation_status, confidence := confidence,
    start_ms := start_ms, end_ms := end_ms }

/-- `{type:"data"|"error"}` discriminator of a client `Message`. -/
inductive MsgType where
  | data
  | error
deriving DecidableEq

/-- The event envelope delivered to the client.  `provider` is an `Option` so
that "the producer did (not) set the `provider` field" is expressible: a dict
without the key is `none`. -/
structure Msg where
  type : MsgType
  provider : Option String := none
  parts : List Part := []
  error_message : Option String := none
deriving DecidableEq

/-- `utils.error_message(provider, message)`. -/
def error_message (provider : String) (message : String) : Msg :=
  { type := .error, provider := some provider, error_message := some message }

/-- `message["provider"] = provider_name` performed by the orchestrator's
`forward_to_client` task: stamps (and overwrites) the provider field. -/
def stampProvider (provider_name : String) (m : Msg) : Msg :=
  { m with provider := some provider_name }

/-- A frame sent by the client: binary audio bytes or a text frame. -/
inductive Data where
  | bytes (b : List Nat)
  | str (s : String)
deriving DecidableEq

/-- Shared state of the six queue-backed adapters (Soniox, Deepgram,
AssemblyAI, OpenAI, Speechmatics, Azure).  `client_queue` is the inbound audio
queue `asyncio.Queue(maxsize=100)`; `host_queue` is the unbounded outbound
event queue.  `audio_stream_open` / `recognizer_running` exist only for Azure
(push stream and SDK recognizer); `ws_open` and the two task flags exist for
the websocket adapters. -/
structure AdapterState where
  is_connected : Bool := false
  error : Option VErr := none
  client_queue : List Data := []
  host_queue : List Msg := []
  ws_open : Bool := false
  sender_alive : Bool := false
  receiver_alive : Bool := false
  audio_stream_open : Bool := true
  recognizer_running : Bool := false
deriving DecidableEq

/-- The freshly constructed adapter (`BaseProvider.__init__` plus the concrete
`__init__`s: not connected, no stored error, both queues empty). -/
def initAdapterState : AdapterState := {}

/-- `disconnect()` of the five websocket adapters (Soniox, Deepgram,
AssemblyAI, OpenAI, Speechmatics — the method body is identical in all five):
clear the connected flag, cancel the sender and receiver tasks, close the
websocket.  The queues and the stored error are not touched. -/
def websocketDisconnect (s : AdapterState) : AdapterState :=
  { s with is_connected := false, sender_alive := false,
           receiver_alive := false, ws_open := false }

/-- `AzureProvider.disconnect()`: clear the connected flag, cancel the sender
task, close the push-audio stream, stop the SDK recognizer (all failures are
caught inside the method, so it never raises). -/
def azureDisconnect (s : AdapterState) : AdapterState :=
  { s with is_connected := false, sender_alive := false,
           audio_stream_open := false, recognizer_running := false }

/-- `SonioxProvider.send(data)`: no stored-error check; "Not connected." when
not connected; `put_nowait` on the bounded queue; on `QueueFull` the adapter
disconnects itself and raises `ProviderError("Queue full: disconnecting.")`
(without storing it). -/
def sonioxSend (s : AdapterState) (d : Data) : AdapterState × Option VErr :=
  if ¬ s.is_connected then
    (s, some (.providerError "Not connected."))
  else if s.client_queue.length < 100 then
    ({ s with client_queue := s.client_queue ++ [d] }, none)
  else
    (websocketDisconnect s, some (.providerError "Queue full: disconnecting."))

/-- `DeepgramProvider.send(data)`: re-raises the stored error first; on
overflow it stores `ProviderError("Queue full: disconnecting.")`, disconnects,
and raises that stored error. -/
def deepgramSend (s : AdapterState) (d : Data) : AdapterState × Option VErr :=
  match s.error with
  | some e => (s, some e)
  | none =>
    if ¬ s.is_connected then
      (s, some (.providerError "Not connected."))
    else if s.client_queue.length < 100 then
      ({ s with client_queue := s.client_queue ++ [d] }, none)
    else
      ({ websocketDisconnect s with
          error := some (.providerError "Queue full: disconnecting.") },
        some (.providerError "Queue full: disconnecting."))

/-- `AssemblyProvider.send(data)`: stored-error check, then like Soniox
(overflow raises without storing). -/
def assemblySend (s : AdapterState) (d : Data) : AdapterState × Option VErr :=
  match s.error with
  | some e => (s, some e)
  | none =>
    if ¬ s.is_connected then
      (s, some (.providerError "Not connected."))
    else if s.client_queue.length < 100 then
      ({ s with client_queue := s.client_queue ++ [d] }, none)
    else
      (websocketDisconnect s, some (.providerError "Queue full: disconnecting."))

/-- `OpenaiProvider.send(data)`: stored-error check; on overflow it
disconnects, stores the overflow error, and raises it. -/
def openaiSend (s : AdapterState) (d : Data) : AdapterState × Option VErr :=
  match s.error with
  | some e => (s, some e)
  | none =>
    if ¬ s.is_connected then
      (s, some (.providerError "Not connected."))
    else if s.client_queue.length < 100 then
      ({ s with client_queue := s.client_queue ++ [d] }, none)
    else
      ({ websocketDisconnect s with
          error := some (.providerError "Queue full: disconnecting.") },
        some (.providerError "Queue full: disconnecting."))

/-- `SpeechmaticsProvider.send(data)`: stored-error check, overflow raises
without storing. -/
def speechmaticsSend (s : AdapterState) (d : Data) : AdapterState × Option VErr :=
  match s.error with
  | some e => (s, some e)
  | none =>
    if ¬ s.is_connected then
      (s, some (.providerError "Not connected."))
    else if s.client_queue.length < 100 then
      ({ s with client_queue := s.client_queue ++ [d] }, none)
    else
      (websocketDisconnect s, some (.providerError "Queue full: disconnecting."))

/-- `AzureProvider.send(data)`: stored-error check; on overflow it stores the
overflow error, disconnects (Azure's own disconnect), and raises the stored
error. -/
def azureSend (s : AdapterState) (d : Data) : AdapterState × Option VErr :=
  match s.error with
  | some e => (s, some e)
  | none =>
    if ¬ s.is_connected then
      (s, some (.providerError "Not connected."))
    else if s.client_queue.length < 100 then
      ({ s with client_queue := s.client_queue ++ [d] }, none)
    else
      ({ azureDisconnect s with
          error := some (.providerError "Queue full: disconnecting.") },
        some (.providerError "Queue full: disconnecting."))

/-- The `while not self.host_queue.empty(): items.append(await
self.host_queue.get())` drain loop shared by every queue adapter's
`receive()`.  `get` on a non-empty queue returns at once, so the loop never
suspends waiting for new data; it returns the drained items (oldest first)
and the emptied queue. -/
def drainLoop {α : Type} : List α → List α → List α × List α
  | acc, [] => (acc, [])
  | acc, m :: rest => drainLoop (acc ++ [m]) rest

/-- `receive()` of Soniox / Deepgram / AssemblyAI / OpenAI / Speechmatics /
Azure: non-blocking drain of the outbound queue. -/
def adapterReceive (s : AdapterState) : List Msg × AdapterState :=
  let r := drainLoop [] s.host_queue
  (r.1, { s with host_queue := r.2 })

/-- The data `Message` a websocket adapter's receiver loop builds before
putting it on `host_queue` (e.g. `SonioxProvider._recv_loop`):
`{"type": "data", "provider": self.config.service.provider_name,
"parts": parts}` — note the adapter itself sets the `provider` key. -/
def adapterDataMessage (cfg : ProviderConfig) (parts : List Part) : Msg :=
  { type := .data, provider := some cfg.service.provider_name, parts := parts }

/-- The error `Message` an adapter's `_handle_error` builds
(`{"type": "error", "provider": self.config.service.provider_name,
"error_message": str(ex)}`). -/
def adapterErrorMessage (cfg : ProviderConfig) (ex : VErr) : Msg :=
  { type := .error, provider := some cfg.service.provider_name,
    error_message := some ex.str }

/-- `SonioxProvider._recv_loop` putting one parsed data message on the
outbound queue. -/
def sonioxPutData (cfg : ProviderConfig) (s : AdapterState) (parts : List Part) :
    AdapterState :=
  { s with host_queue := s.host_queue ++ [adapterDataMessage cfg parts] }

/-- `SonioxProvider._handle_error(ex)`: put one error message on the outbound
queue, then `await self.disconnect()`.  It does not assign `self.error`. -/
def sonioxHandleError (cfg : ProviderConfig) (s : AdapterState) (ex : VErr) :
    AdapterState :=
  websocketDisconnect
    { s with host_queue := s.host_queue ++ [adapterErrorMessage cfg ex] }

/-- Network actions an adapter's `connect()` may perform, for the
"zero calls into the transport layer" part of claim C1. -/
inductive NetAct where
  | wsConnect
  | wsSend
  | sdkStart
deriving DecidableEq

/-- `SonioxProvider.connect()`: no-op if already connected; otherwise validate
capabilities (purely local), and only then open the websocket and send the
init message (the two transport actions).  A validation failure is raised
before any transport action. -/
def sonioxConnect (params : ProviderParams) (s : AdapterState) :
    AdapterState × Option VErr × List NetAct :=
  if s.is_connected then
    (s, none, [])
  else
    match validate_capabilities sonioxFeatures params "Soniox" with
    | .error e => (s, some e, [])
    | .ok _ =>
      ({ s with is_connected := true, ws_open := true,
                sender_alive := true, receiver_alive := true },
        none, [.wsConnect, .wsSend])

/-- `AzureProvider.connect()`: no-op if already connected; otherwise validate
via Azure's own helper, and only then build the SDK recognizer and start it
(the transport action).  A validation failure is raised before any transport
action. -/
def azureConnect (params : ProviderParams) (s : AdapterState) :
    AdapterState × Option VErr × List NetAct :=
  if s.is_connected then
    (s, none, [])
  else
    match azure_validate_capabilities_helper azureFeatures params "Azure" with
    | .error e => (s, some e, [])
    | .ok _ =>
      ({ s with is_connected := true, recognizer_running := true,
                sender_alive := true, error := none },
        none, [.sdkStart])


/-- State of `GoogleProvider`.  The inbound audio queue `_audio_chunk_queue`
is created only by `connect()` and is an UNBOUNDED `asyncio.Queue()`; `None`
entries are the end-of-audio sentinel.  `stop_event` models
`_stop_sending_audio_event` (`none` before `connect`).  The outbound
`_results_queue` can hold `None` sentinels besides Messages. -/
structure GoogleState where
  is_connected : Bool := false
  error : Option VErr := none
  speech_client : Bool := false
  audio_chunk_queue : Option (List (Option (List Nat))) := none
  stop_event : Option Bool := none
  manage_alive : Bool := false
  results_queue : List (Option Msg) := []
deriving DecidableEq

/-- The freshly constructed `GoogleProvider` (before `connect()`). -/
def initGoogleState : GoogleState := {}

/-- The `GoogleProvider` state right after a successful `connect()`: results
cleared, client initialized, fresh unbounded audio queue, fresh (unset) stop
event, stream-management task running. -/
def googleConnectedState : GoogleState :=
  { is_connected := true, error := none, speech_client := true,
    audio_chunk_queue := some [], stop_event := some false,
    manage_alive := true, results_queue := [] }

/-- The `reason` string `GoogleProvider.send` builds when it rejects a chunk:
the stored error's text if one is held, else "not connected", else
"audio queue not ready", else "stopping/stopped". -/
def googleSendReason (s : GoogleState) : String :=
  match s.error with
  | some e => e.str
  | none =>
    if ¬ s.is_connected then "not connected"
    else if s.audio_chunk_queue = none then "audio queue not ready"
    else "stopping/stopped"

/-- `GoogleProvider.send_end()` as far as `send` observes it: set the stop
event and enqueue the `None` end-of-audio sentinel (the subsequent bounded
wait for `_manage_stream_task` is modelled as the task having finished). -/
def googleSendEnd (s : GoogleState) : GoogleState :=
  { s with stop_event := s.stop_event.map (fun _ => true),
           audio_chunk_queue := s.audio_chunk_queue.map (· ++ [none]),
           manage_alive := false }

/-- `GoogleProvider.send(data)`: rejects (building a fresh `ProviderError`
around `googleSendReason`) when not connected, the audio queue is absent, or
the stop event is set; otherwise `await self._audio_chunk_queue.put(data)` on
the UNBOUNDED queue — there is no capacity check and no overflow path.  A
string other than "END" is a `ValueError`. -/
def googleSend (s : GoogleState) (d : Data) : GoogleState × Option VErr :=
  if ¬ s.is_connected ∨ s.audio_chunk_queue = none ∨ s.stop_event = some true then
    (s, some (.providerError
      ("GoogleProvider send failed: provider is " ++ googleSendReason s)))
  else
    match d with
    | .bytes b =>
      ({ s with audio_chunk_queue := s.audio_chunk_queue.map (· ++ [some b]) },
        none)
    | .str t =>
      if t = "END" then
        (googleSendEnd s, none)
      else
        (s, some (.valueError
          (s!"GoogleProvider received unexpected string data: '{t}'. " ++
            "Expected bytes or 'END'.")))

/-- `GoogleProvider.receive()`: `_results_queue` always exists (created in
`__init__`), so the guard branch returning an error message is unreachable;
the method drains everything buffered (including `None` sentinels). -/
def googleReceive (s : GoogleState) : List (Option Msg) × GoogleState :=
  let r := drainLoop [] s.results_queue
  (r.1, { s with results_queue := r.2 })

/-- `GoogleProvider.disconnect()`: `send_end()` first (stop event set, `None`
audio sentinel, bounded wait for the stream task), then cancel the stream
task, drop the client, clear the connected flag, drain `_results_queue` and
put one `None` sentinel on it. -/
def googleDisconnect (s : GoogleState) : GoogleState :=
  let s1 := googleSendEnd s
  { s1 with manage_alive := false, speech_client := false, is_connected := false,
            results_queue := [none] }

/-- `GoogleProvider._manage_stream`'s generic `except Exception` branch plus
its `finally` block, for a streaming failure with text `emsg`: store
`ProviderError("Google streaming error: " + emsg)`, put one error message on
the results queue; then (finally) clear the connected flag, set the stop
event, put a `None` audio sentinel if the audio queue is empty, and put a
`None` results sentinel. -/
def googleStreamFailure (emsg : String) (s : GoogleState) : GoogleState :=
  let err := "Google streaming error: " ++ emsg
  { s with error := some (.providerError err),
           results_queue := s.results_queue ++ [some (error_message "google" err)]
             ++ [none],
           is_connected := false,
           stop_event := s.stop_event.map (fun _ => true),
           audio_chunk_queue :=
             match s.audio_chunk_queue with
             | some [] => some [none]
             | q => q,
           manage_alive := false }

/-- The orchestrator's per-frame fan-out guard from `main.py`'s main loop:
`if not provider.is_connected(): continue`.  `driveSends send s chunks`
feeds the chunks one per frame through `send`, skipping frames once the
adapter reports itself disconnected, and collects every error the `send`
calls raised. -/
def driveSends (send : AdapterState → Data → AdapterState × Option VErr) :
    AdapterState → List Data → AdapterState × List VErr
  | s, [] => (s, [])
  | s, c :: rest =>
    if s.is_connected then
      let r := send s c
      let q := driveSends send r.1 rest
      (q.1, r.2.toList ++ q.2)
    else
      driveSends send s rest

/-- Same frame-by-frame driver for the Google adapter. -/
def googleDriveSends : GoogleState → List Data → GoogleState × List VErr
  | s, [] => (s, [])
  | s, c :: rest =>
    if s.is_connected then
      let r := googleSend s c
      let q := googleDriveSends r.1 rest
      (q.1, r.2.toList ++ q.2)
    else
      googleDriveSends s rest

/-- A fresh, successfully connected queue adapter (websocket flavour). -/
def connectedAdapterState : AdapterState :=
  { is_connected := true, ws_open := true, sender_alive := true,
    receiver_alive := true }


/-- Outcome of the `try` block of the provider-loading loop in
`compare_websocket` (module import, class lookup, `get_provider_config`,
construction, `connect()`): either the adapter ends up connected, or some
exception `e` was raised inside the block. -/
inductive ConnectOutcome where
  | ok
  | fail (e : VErr)
deriving DecidableEq

/-- The provider-loading loop of `compare_websocket` (`main.py`): for each
requested name, the adapter is registered in `active_providers` (connected
flag per the outcome), and on any exception exactly one error `Message`
tagged with that name is sent to the client; the loop then continues with the
next requested provider. -/
def connectPhase (reqs : List (String × ConnectOutcome)) :
    List (String × Bool) × List Msg :=
  reqs.foldl
    (fun acc r =>
      match r.2 with
      | .ok => (acc.1 ++ [(r.1, true)], acc.2)
      | .fail e => (acc.1 ++ [(r.1, false)], acc.2 ++ [error_message r.1 e.str]))
    ([], [])

/-- One frame of the main loop's fan-out (`main.py`): every registered adapter
that is currently connected receives the frame via `send()`/`send_end()`;
a failure produces one error `Message` for that provider and the loop
continues with the remaining adapters.  Each entry is
`(name, is_connected, outcome of this frame's send)`.  Returns the names the
frame was sent to and the error messages produced. -/
def fanOutFrame (adapters : List (String × Bool × Option VErr)) :
    List String × List Msg :=
  adapters.foldl
    (fun acc a =>
      if a.2.1 then
        match a.2.2 with
        | none => (acc.1 ++ [a.1], acc.2)
        | some e =>
          (acc.1 ++ [a.1], acc.2 ++
            [error_message a.1 ("Error while sending message to provider: " ++ e.str)])
      else acc)
    ([], [])

/-- State of one adapter's outbound stream as the orchestrator sees it: the
adapter-side outbound queue and the list of Messages already written to the
client socket for this provider, in write order. -/
structure ForwardState where
  hostq : List Msg := []
  delivered : List Msg := []
deriving DecidableEq

/-- An event of one provider's stream: the adapter produces a `Message` onto
its outbound queue, or the forwarding task runs one iteration. -/
inductive StreamEvent where
  | produce (m : Msg)
  | forward
deriving DecidableEq

/-- One step of one provider's stream.  `forward` is one iteration of
`forward_to_client` (`main.py`): `receive()` drains the outbound queue, each
drained `Message` is stamped with the registered provider name and written to
the client. -/
def streamStep (provider_name : String) (st : ForwardState) :
    StreamEvent → ForwardState
  | .produce m => { st with hostq := st.hostq ++ [m] }
  | .forward =>
    let r := drainLoop [] st.hostq
    { hostq := r.2,
      delivered := st.delivered ++ r.1.map (stampProvider provider_name) }

/-- Run a sequence of stream events from a given state. -/
def streamRun (provider_name : String) (st : ForwardState)
    (evs : List StreamEvent) : ForwardState :=
  evs.foldl (streamStep provider_name) st

/-- The Messages produced so far by a list of stream events, in production
order. -/
def producedMsgs (evs : List StreamEvent) : List Msg :=
  evs.filterMap (fun e => match e with | .produce m => some m | .forward => none)

/-- Session-level view of `ProviderParams` ownership: the session's shared
value (built once in `compare_websocket`) and one private cell per
constructed adapter.  `get_provider_config` (config.py) builds every
`ProviderConfig` with `params=deepcopy(params)`, so registering an adapter
allocates a fresh cell holding an equal copy instead of aliasing the shared
value. -/
structure SessionStore where
  sessionParams : ProviderParams
  adapterCells : List (String × ProviderParams) := []
deriving DecidableEq

/-- `deepcopy(params)` in `get_provider_config`: a fresh, equal copy. -/
def deepcopyParams (p : ProviderParams) : ProviderParams := p

/-- Constructing one adapter for the session: its config receives its own
copied params cell. -/
def registerAdapter (st : SessionStore) (name : String) : SessionStore :=
  { st with adapterCells :=
      st.adapterCells ++ [(name, deepcopyParams st.sessionParams)] }

/-- An adapter mutating its own `self.config.params` (as
`GoogleProvider._update_transcription_languages`,
`GoogleProvider._update_translation_language_pair` and
`AzureProvider.connect` do): the rewrite `f` is applied to that adapter's
cell only. -/
def mutateAdapterParams (st : SessionStore) (name : String)
    (f : ProviderParams → ProviderParams) : SessionStore :=
  { st with adapterCells :=
      st.adapterCells.map (fun c => if c.1 = name then (c.1, f c.2) else c) }

/-- The params an adapter currently sees (first cell registered under its
name). -/
def adapterParamsOf (st : SessionStore) (name : String) : Option ProviderParams :=
  (st.adapterCells.find? (fun c => c.1 = name)).map (·.2)

/-- One fold step of `GoogleProvider._update_transcription_languages`'s
`for lang_hint in ...` loop.  Note the source appends `"ca-ES"` for the hint
`"es"` and then still executes `languages.append(lang_mapping[lang_hint])`
(the final append is outside the `elif`), which is a `KeyError` when `"es"`
is not a key of the mapping. -/
def googleMapHint (lang_mapping : List (String × String)) (acc : List String)
    (h : String) : Except VErr (List String) :=
  if h = "es" then
    match lang_mapping.lookup "es" with
    | some v => .ok (acc ++ ["ca-ES"] ++ [v])
    | none => .error .keyError
  else
    match lang_mapping.lookup h with
    | some v => .ok (acc ++ [v])
    | none => .error (.providerError s!"Google does not support language {h}.")

/-- `GoogleProvider._update_transcription_languages` as a rewrite of the
adapter's own params copy: maps every hint through the static language
mapping and, on success, assigns the mapped list to
`self.config.params.language_hints`. -/
def google_update_transcription_languages (lang_mapping : List (String × String))
    (p : ProviderParams) : Except VErr ProviderParams :=
  if p.language_hints = [] then
    .error (.providerError
      "Google provider does not support auto language detect in streaming mode.")
  else
    match p.language_hints.foldlM (googleMapHint lang_mapping) [] with
    | .error e => .error e
    | .ok languages =>
      if languages.length > 3 then
        .error (.providerError "Google supports up 3 language inputs.")
      else
        .ok { p with language_hints := languages }

/-- One vendor word of a Deepgram streaming response
(`data["channel"]["alternatives"][0]["words"][i]`).  `start`/`end` are
seconds; `end` is spelled `end_time` because `end` is a Lean keyword. -/
structure DGWord where
  punctuated_word : Option String := none
  start : Option Rat := none
  end_time : Option Rat := none
  confidence : Option Rat := none
  speaker : Option Int := none
deriving DecidableEq

/-- The per-word body of `DeepgramProvider._recv_loop` (lines 158-190),
producing one `Part`:
* speaker: `word.get("speaker", "UNKNOWN")`, incremented when not the
  `"UNKNOWN"` default, only under diarization;
* `start_ms = int(start_s * 1000) if start_s is None else None` — the
  conversion is attempted exactly when the vendor time is ABSENT (where
  `None * 1000` is a `TypeError`), and when the vendor time is present the
  field is set to `None`; same for `end_ms`;
* text: `word["punctuated_word"]` (a `KeyError` when missing), with a leading
  space except for the very first word. -/
def deepgram_process_word (diarize : Bool) (first_word : Bool) (is_final : Bool)
    (w : DGWord) : Except VErr Part :=
  let speaker : Option SpeakerVal :=
    if diarize then
      match w.speaker with
      | some n => some (.int (n + 1))
      | none => some (.str "UNKNOWN")
    else none
  match w.start, w.end_time, w.punctuated_word with
  | none, _, _ => .error .typeError
  | some _, none, _ => .error .typeError
  | some _, some _, none => .error .keyError
  | some _, some _, some t =>
    let text := if first_word then t else " " ++ t
    .ok (make_part text is_final speaker none none none w.confidence none)

/-- The Soniox operations reachable in one session, as a reachability
predicate on `AdapterState`: fresh construction, `connect`, `send`,
`send_end` (which is `send("")`), `receive`, `disconnect`, and the receiver
loop's two effects.  Used to show a Soniox adapter can never hold a stored
error. -/
inductive SonioxReach (cfg : ProviderConfig) : AdapterState → Prop where
  | init : SonioxReach cfg initAdapterState
  | connect (p : ProviderParams) {s : AdapterState} :
      SonioxReach cfg s → SonioxReach cfg (sonioxConnect p s).1
  | send (d : Data) {s : AdapterState} :
      SonioxReach cfg s → SonioxReach cfg (sonioxSend s d).1
  | send_end {s : AdapterState} :
      SonioxReach cfg s → SonioxReach cfg (sonioxSend s (.str "")).1
  | receive {s : AdapterState} :
      SonioxReach cfg s → SonioxReach cfg (adapterReceive s).2
  | disconnect {s : AdapterState} :
      SonioxReach cfg s → SonioxReach cfg (websocketDisconnect s)
  | recv_data (parts : List Part) {s : AdapterState} :
      SonioxReach cfg s → SonioxReach cfg (sonioxPutData cfg s parts)
  | recv_error (e : VErr) {s : AdapterState} :
      SonioxReach cfg s → SonioxReach cfg (sonioxHandleError cfg s e)


/-- Spec-side outcome of §4.3 validation: the error of the first violated
rule, or success.  (Second definition for the refinement comparison with the
transcribed `validate_capabilities`.) -/
def specValidationOutcome (features : SupportedFeatures) (params : ProviderParams)
    (provider : String) : Except VErr Unit :=
  match specFirstViolated features params with
  | some r => .error (.providerError (specRuleError provider r))
  | none => .ok ()

/-- A concrete two-way translation request with every boolean feature flag
off (as `compare_websocket` would build it for
`mode=mt&translation_type=two_way` with no flags set). -/
def twoWayParams : ProviderParams :=
  { mode := .mt, language_hints := [], context := "",
    enable_speaker_diarization := false,
    enable_language_identification := false,
    enable_endpoint_detection := false,
    translation := some { target_language := "en", source_languages := ["*"],
                          language_a := some "en", language_b := some "de",
                          type := "two_way" } }

/-- `get_soniox_service_config()` (config.py) with a placeholder key, merged
into a `ProviderConfig` as `get_provider_config` does. -/
def exampleSonioxConfig : ProviderConfig :=
  { params := {},
    service := { provider_name := "soniox", api_key := "KEY",
                 websocket_url := "wss://stt-rt.soniox.com/transcribe-websocket",
                 model := "stt-rt-preview" } }

instance {ε α : Type} [DecidableEq ε] [DecidableEq α] : DecidableEq (Except ε α) :=
  fun a b =>
    match a, b with
    | .ok x, .ok y =>
      if h : x = y then isTrue (congrArg Except.ok h)
      else isFalse (fun hc => h (Except.ok.inj hc))
    | .error x, .error y =>
      if h : x = y then isTrue (congrArg Except.error h)
      else isFalse (fun hc => h (Except.error.inj hc))
    | .ok _, .error _ => isFalse (fun hc => Except.noConfusion hc)
    | .error _, .ok _ => isFalse (fun hc => Except.noConfusion hc)

theorem drainLoop_eq {α : Type} (q : List α) :
    ∀ acc : List α, drainLoop acc q = (acc ++ q, []) := by
  induction q with
  | nil => intro acc; simp [drainLoop]
  | cons m rest ih =>
    intro acc
    simp [drainLoop, ih, List.append_assoc]

theorem validate_capabilities_refines (features : SupportedFeatures)
    (params : ProviderParams) (provider : String)
    (h : params.mode = .mt → params.translation ≠ none) :
    validate_capabilities features params provider =
      specValidationOutcome features params provider := by
  unfold validate_capabilities specValidationOutcome specFirstViolated
  cases hm : params.mode with
  | stt =>
    rw [if_neg (by simp :
      ¬ (OperationMode.stt = OperationMode.mt ∧
        features.translation_one_way.state = FeatureState.UNSUPPORTED))]
    simp only [rule2Condition, hm]
    by_cases h3 : params.enable_speaker_diarization = true ∧
        features.speaker_diarization.state = .UNSUPPORTED
    · simp [List.find?, specRuleViolated, hm, h3, specRuleError]
    · by_cases h4 : params.enable_language_identification = true ∧
          features.language_identification.state = .UNSUPPORTED
      · simp [List.find?, specRuleViolated, hm, h3, h4, specRuleError]
      · by_cases h5 : params.enable_endpoint_detection = true ∧
            features.endpoint_detection.state = .UNSUPPORTED
        · simp [List.find?, specRuleViolated, hm, h3, h4, h5, specRuleError]
        · simp [List.find?, specRuleViolated, hm, h3, h4, h5]
  | mt =>
    cases ht : params.translation with
    | none => exact absurd ht (h hm)
    | some t =>
      by_cases h1 : features.translation_one_way.state = .UNSUPPORTED
      · simp [List.find?, specRuleViolated, hm, h1, specRuleError]
      · by_cases h2 : t.type = "two_way" ∧
            features.translation_two_way.state ≠ .SUPPORTED
        · simp [rule2Condition, List.find?, specRuleViolated, hm, ht, h1, h2.1,
            h2.2, specRuleError]
        · by_cases h3 : params.enable_speaker_diarization = true ∧
              features.speaker_diarization.state = .UNSUPPORTED
          · simp [rule2Condition, List.find?, specRuleViolated, hm, ht, h1, h2,
              h3, specRuleError]
          · by_cases h4 : params.enable_language_identification = true ∧
                features.language_identification.state = .UNSUPPORTED
            · simp [rule2Condition, List.find?, specRuleViolated, hm, ht, h1,
                h2, h3, h4, specRuleError]
            · by_cases h5 : params.enable_endpoint_detection = true ∧
                  features.endpoint_detection.state = .UNSUPPORTED
              · simp [rule2Condition, List.find?, specRuleViolated, hm, ht, h1,
                  h2, h3, h4, h5, specRuleError]
              · simp [rule2Condition, List.find?, specRuleViolated, hm, ht, h1,
                  h2, h3, h4, h5]


/-- C1 (amended).  The shared `validate_capabilities` — the capability
validation called by the `connect()` of every adapter except Azure — equals
the spec's first-violated-rule function over the five rules in their fixed
order; and for both the Soniox exemplar and Azure, a validation failure in
`connect()` leaves the adapter untouched and performs zero transport actions.
(Azure's `connect()` validates through its own four-rule helper, which omits
the two-way-translation rule; see the counterexample.) -/
theorem claim1_capability_validation :
    (∀ (features : SupportedFeatures) (params : ProviderParams)
        (provider : String),
      (params.mode = .mt → params.translation ≠ none) →
      validate_capabilities features params provider =
        specValidationOutcome features params provider) ∧
    (∀ (params : ProviderParams) (s : AdapterState) (e : VErr),
      s.is_connected = false →
      validate_capabilities sonioxFeatures params "Soniox" = .error e →
      sonioxConnect params s = (s, some e, [])) ∧
    (∀ (params : ProviderParams) (s : AdapterState) (e : VErr),
      s.is_connected = false →
      azure_validate_capabilities_helper azureFeatures params "Azure" = .error e →
      azureConnect params s = (s, some e, [])) := by
  refine ⟨validate_capabilities_refines, ?_, ?_⟩
  · intro params s e hc hv
    simp [sonioxConnect, hc, hv]
  · intro params s e hc hv
    simp [azureConnect, hc, hv]

/-- C1 counterexample.  For a two-way translation request against Azure's
capability matrix (two-way translation `UNSUPPORTED`), the five-rule
validation of the claim raises rule (2), but the validation Azure's
`connect()` actually performs succeeds: Azure does not evaluate the five
rules, so the claim is false as stated. -/
theorem claim1_azure_counterexample :
    validate_capabilities azureFeatures twoWayParams "Azure" =
      .error (.providerError
        "Two way machine translation is not supported by Azure.") ∧
    azure_validate_capabilities_helper azureFeatures twoWayParams "Azure" =
      .ok () := by
  constructor <;> rfl

/-- C1 witness: the amended theorem applied at concrete inputs. -/
theorem claim1_witness :
    validate_capabilities deepgramFeatures twoWayParams "Deepgram" =
      specValidationOutcome deepgramFeatures twoWayParams "Deepgram" ∧
    sonioxConnect { twoWayParams with translation := none } initAdapterState
      = (initAdapterState, some .attrError, []) ∧
    azureConnect { twoWayParams with enable_speaker_diarization := true }
        initAdapterState
      = (initAdapterState,
          some (.providerError ("Azure only supports speaker diarization in 'stt' mode." ++
            "\n[Click here to read more.](https://learn.microsoft.com/en-us/azure/ai-services/speech-service/get-started-stt-diarization?tabs=linux&pivots=programming-language-python)")),
          []) := by
  refine ⟨claim1_capability_validation.1 deepgramFeatures twoWayParams "Deepgram"
      (fun _ => by simp [twoWayParams]),
    claim1_capability_validation.2.1 _ _ _ rfl (by rfl),
    claim1_capability_validation.2.2 _ _ _ rfl (by rfl)⟩


theorem driveSends_stopped (send : AdapterState → Data → AdapterState × Option VErr)
    (chunks : List Data) : ∀ s : AdapterState, s.is_connected = false →
    driveSends send s chunks = (s, []) := by
  induction chunks with
  | nil => intro s _; rfl
  | cons c rest ih =>
    intro s hs
    simp only [driveSends, hs]
    exact ih s hs

theorem boundedSendRun_ok (send : AdapterState → Data → AdapterState × Option VErr)
    (henq : ∀ (s : AdapterState) (d : Data), s.is_connected = true →
      s.error = none → s.client_queue.length < 100 →
      send s d = ({ s with client_queue := s.client_queue ++ [d] }, none)) :
    ∀ (chunks : List Data) (s : AdapterState), s.is_connected = true →
      s.error = none → s.client_queue.length + chunks.length ≤ 100 →
      driveSends send s chunks =
        ({ s with client_queue := s.client_queue ++ chunks }, []) := by
  intro chunks
  induction chunks with
  | nil =>
    intro s hc he _
    obtain ⟨conn, err, cq, hq, ws, sa, ra, ao, rr⟩ := s
    simp only at hc he
    subst hc he
    simp [driveSends]
  | cons c rest ih =>
    intro s hc he hlen
    obtain ⟨conn, err, cq, hq, ws, sa, ra, ao, rr⟩ := s
    simp only at hc he hlen ⊢
    subst hc he
    have hlt : cq.length < 100 := by
      simp only [List.length_cons] at hlen; omega
    simp only [driveSends, if_true,
      henq ⟨true, none, cq, hq, ws, sa, ra, ao, rr⟩ c rfl rfl hlt]
    have hrec := ih ⟨true, none, cq ++ [c], hq, ws, sa, ra, ao, rr⟩ rfl rfl
      (by simp only [List.length_append, List.length_cons, List.length_nil] at hlen ⊢; omega)
    simp only [hrec]
    simp [List.append_assoc]

theorem boundedSendRun_overflow
    (send : AdapterState → Data → AdapterState × Option VErr)
    (henq : ∀ (s : AdapterState) (d : Data), s.is_connected = true →
      s.error = none → s.client_queue.length < 100 →
      send s d = ({ s with client_queue := s.client_queue ++ [d] }, none))
    (hovf : ∀ (s : AdapterState) (d : Data), s.is_connected = true →
      s.error = none → s.client_queue.length = 100 →
      (send s d).1.is_connected = false ∧
      (send s d).1.client_queue = s.client_queue ∧
      (send s d).2 = some (.providerError "Queue full: disconnecting.")) :
    ∀ (chunks : List Data) (s : AdapterState), s.is_connected = true →
      s.error = none → s.client_queue.length ≤ 100 →
      100 < s.client_queue.length + chunks.length →
      (driveSends send s chunks).1.is_connected = false ∧
      (driveSends send s chunks).1.client_queue =
        s.client_queue ++ chunks.take (100 - s.client_queue.length) ∧
      (driveSends send s chunks).2 =
        [.providerError "Queue full: disconnecting."] := by
  intro chunks
  induction chunks with
  | nil => intro s _ _ hle hgt; simp at hgt; omega
  | cons c rest ih =>
    intro s hc he hle hgt
    obtain ⟨conn, err, cq, hq, ws, sa, ra, ao, rr⟩ := s
    simp only at hc he hle hgt ⊢
    subst hc he
    by_cases hfull : cq.length = 100
    · obtain ⟨h1, h2, h3⟩ := hovf ⟨true, none, cq, hq, ws, sa, ra, ao, rr⟩ c rfl rfl hfull
      simp only [driveSends, if_true]
      rw [driveSends_stopped send rest _ h1, h3]
      refine ⟨h1, ?_, rfl⟩
      simp only at h2
      simp [h2, hfull]
    · have hlt : cq.length < 100 := by omega
      simp only [driveSends, if_true,
        henq ⟨true, none, cq, hq, ws, sa, ra, ao, rr⟩ c rfl rfl hlt]
      have hrec := ih ⟨true, none, cq ++ [c], hq, ws, sa, ra, ao, rr⟩ rfl rfl
        (by simp only [List.length_append, List.length_cons, List.length_nil]; omega)
        (by simp only [List.length_append, List.length_cons, List.length_nil] at hgt ⊢; omega)
      obtain ⟨h1, h2, h3⟩ := hrec
      refine ⟨h1, ?_, by simpa using h3⟩
      simp only at h2
      rw [h2]
      simp only [List.length_append, List.length_cons]
      have htake : (c :: rest).take (100 - cq.length) =
          c :: rest.take (100 - (cq.length + 1)) := by
        have h100 : 100 - cq.length = (100 - (cq.length + 1)) + 1 := by omega
        rw [h100, List.take_succ_cons]
      rw [htake]
      simp [List.append_assoc]


theorem sonioxSend_enqueue : ∀ (s : AdapterState) (d : Data),
    s.is_connected = true → s.error = none → s.client_queue.length < 100 →
    sonioxSend s d = ({ s with client_queue := s.client_queue ++ [d] }, none) := by
  intro s d hc _ hlt
  simp [sonioxSend, hc, hlt]

theorem sonioxSend_overflow : ∀ (s : AdapterState) (d : Data),
    s.is_connected = true → s.error = none → s.client_queue.length = 100 →
    (sonioxSend s d).1.is_connected = false ∧
    (sonioxSend s d).1.client_queue = s.client_queue ∧
    (sonioxSend s d).2 = some (.providerError "Queue full: disconnecting.") := by
  intro s d hc _ hfull
  simp [sonioxSend, websocketDisconnect, hc, hfull]

theorem deepgramSend_enqueue : ∀ (s : AdapterState) (d : Data),
    s.is_connected = true → s.error = none → s.client_queue.length < 100 →
    deepgramSend s d = ({ s with client_queue := s.client_queue ++ [d] }, none) := by
  intro s d hc he hlt
  simp [deepgramSend, he, hc, hlt]

theorem deepgramSend_overflow : ∀ (s : AdapterState) (d : Data),
    s.is_connected = true → s.error = none → s.client_queue.length = 100 →
    (deepgramSend s d).1.is_connected = false ∧
    (deepgramSend s d).1.client_queue = s.client_queue ∧
    (deepgramSend s d).2 = some (.providerError "Queue full: disconnecting.") := by
  intro s d hc he hfull
  simp [deepgramSend, websocketDisconnect, he, hc, hfull]

theorem assemblySend_enqueue : ∀ (s : AdapterState) (d : Data),
    s.is_connected = true → s.error = none → s.client_queue.length < 100 →
    assemblySend s d = ({ s with client_queue := s.client_queue ++ [d] }, none) := by
  intro s d hc he hlt
  simp [assemblySend, he, hc, hlt]

theorem assemblySend_overflow : ∀ (s : AdapterState) (d : Data),
    s.is_connected = true → s.error = none → s.client_queue.length = 100 →
    (assemblySend s d).1.is_connected = false ∧
    (assemblySend s d).1.client_queue = s.client_queue ∧
    (assemblySend s d).2 = some (.providerError "Queue full: disconnecting.") := by
  intro s d hc he hfull
  simp [assemblySend, websocketDisconnect, he, hc, hfull]

theorem openaiSend_enqueue : ∀ (s : AdapterState) (d : Data),
    s.is_connected = true → s.error = none → s.client_queue.length < 100 →
    openaiSend s d = ({ s with client_queue := s.client_queue ++ [d] }, none) := by
  intro s d hc he hlt
  simp [openaiSend, he, hc, hlt]

theorem openaiSend_overflow : ∀ (s : AdapterState) (d : Data),
    s.is_connected = true → s.error = none → s.client_queue.length = 100 →
    (openaiSend s d).1.is_connected = false ∧
    (openaiSend s d).1.client_queue = s.client_queue ∧
    (openaiSend s d).2 = some (.providerError "Queue full: disconnecting.") := by
  intro s d hc he hfull
  simp [openaiSend, websocketDisconnect, he, hc, hfull]

theorem speechmaticsSend_enqueue : ∀ (s : AdapterState) (d : Data),
    s.is_connected = true → s.error = none → s.client_queue.length < 100 →
    speechmaticsSend s d =
      ({ s with client_queue := s.client_queue ++ [d] }, none) := by
  intro s d hc he hlt
  simp [speechmaticsSend, he, hc, hlt]

theorem speechmaticsSend_overflow : ∀ (s : AdapterState) (d : Data),
    s.is_connected = true → s.error = none → s.client_queue.length = 100 →
    (speechmaticsSend s d).1.is_connected = false ∧
    (speechmaticsSend s d).1.client_queue = s.client_queue ∧
    (speechmaticsSend s d).2 = some (.providerError "Queue full: disconnecting.") := by
  intro s d hc he hfull
  simp [speechmaticsSend, websocketDisconnect, he, hc, hfull]

theorem azureSend_enqueue : ∀ (s : AdapterState) (d : Data),
    s.is_connected = true → s.error = none → s.client_queue.length < 100 →
    azureSend s d = ({ s with client_queue := s.client_queue ++ [d] }, none) := by
  intro s d hc he hlt
  simp [azureSend, he, hc, hlt]

theorem azureSend_overflow : ∀ (s : AdapterState) (d : Data),
    s.is_connected = true → s.error = none → s.client_queue.length = 100 →
    (azureSend s d).1.is_connected = false ∧
    (azureSend s d).1.client_queue = s.client_queue ∧
    (azureSend s d).2 = some (.providerError "Queue full: disconnecting.") := by
  intro s d hc he hfull
  simp [azureSend, azureDisconnect, he, hc, hfull]

theorem googleSendRun (bs : List (List Nat)) : ∀ q : List (Option (List Nat)),
    googleDriveSends { googleConnectedState with audio_chunk_queue := some q }
      (bs.map Data.bytes) =
    ({ googleConnectedState with audio_chunk_queue := some (q ++ bs.map some) },
      []) := by
  induction bs with
  | nil => intro q; simp [googleDriveSends]
  | cons b rest ih =>
    intro q
    have hrec := ih (q ++ [some b])
    simp only [googleConnectedState] at hrec ⊢
    simp [googleDriveSends, googleSend, hrec, List.append_assoc]


/-- C2 (amended).  For the six queue-backed adapters (Soniox, Deepgram,
AssemblyAI, OpenAI, Speechmatics, Azure) the inbound audio queue is bounded at
100 chunks and the policy is fail-closed: feeding more than 100 chunks with
none drained leaves exactly the first 100 enqueued, disconnects the adapter,
and raises exactly one overflow `ProviderError` ("Queue full: disconnecting."),
which the orchestrator turns into one error `Message`; no chunk beyond the
100th is accepted while connected.  The Google adapter, however, uses an
UNBOUNDED inbound audio queue: every chunk is accepted, no error is raised,
and the adapter stays connected (see the counterexample). -/
theorem claim2_bounded_queue_overflow :
    (∀ chunks : List Data, 100 < chunks.length →
      ((driveSends sonioxSend connectedAdapterState chunks).1.is_connected = false ∧
        (driveSends sonioxSend connectedAdapterState chunks).1.client_queue =
          chunks.take 100 ∧
        (driveSends sonioxSend connectedAdapterState chunks).2 =
          [.providerError "Queue full: disconnecting."]) ∧
      ((driveSends deepgramSend connectedAdapterState chunks).1.is_connected = false ∧
        (driveSends deepgramSend connectedAdapterState chunks).1.client_queue =
          chunks.take 100 ∧
        (driveSends deepgramSend connectedAdapterState chunks).2 =
          [.providerError "Queue full: disconnecting."]) ∧
      ((driveSends assemblySend connectedAdapterState chunks).1.is_connected = false ∧
        (driveSends assemblySend connectedAdapterState chunks).1.client_queue =
          chunks.take 100 ∧
        (driveSends assemblySend connectedAdapterState chunks).2 =
          [.providerError "Queue full: disconnecting."]) ∧
      ((driveSends openaiSend connectedAdapterState chunks).1.is_connected = false ∧
        (driveSends openaiSend connectedAdapterState chunks).1.client_queue =
          chunks.take 100 ∧
        (driveSends openaiSend connectedAdapterState chunks).2 =
          [.providerError "Queue full: disconnecting."]) ∧
      ((driveSends speechmaticsSend connectedAdapterState chunks).1.is_connected = false ∧
        (driveSends speechmaticsSend connectedAdapterState chunks).1.client_queue =
          chunks.take 100 ∧
        (driveSends speechmaticsSend connectedAdapterState chunks).2 =
          [.providerError "Queue full: disconnecting."]) ∧
      ((driveSends azureSend connectedAdapterState chunks).1.is_connected = false ∧
        (driveSends azureSend connectedAdapterState chunks).1.client_queue =
          chunks.take 100 ∧
        (driveSends azureSend connectedAdapterState chunks).2 =
          [.providerError "Queue full: disconnecting."])) ∧
    (∀ bs : List (List Nat),
      googleDriveSends googleConnectedState (bs.map Data.bytes) =
        ({ googleConnectedState with audio_chunk_queue := some (bs.map some) },
          [])) := by
  constructor
  · intro chunks h
    have hrun : ∀ (send : AdapterState → Data → AdapterState × Option VErr),
        (∀ (s : AdapterState) (d : Data), s.is_connected = true →
          s.error = none → s.client_queue.length < 100 →
          send s d = ({ s with client_queue := s.client_queue ++ [d] }, none)) →
        (∀ (s : AdapterState) (d : Data), s.is_connected = true →
          s.error = none → s.client_queue.length = 100 →
          (send s d).1.is_connected = false ∧
          (send s d).1.client_queue = s.client_queue ∧
          (send s d).2 = some (.providerError "Queue full: disconnecting.")) →
        (driveSends send connectedAdapterState chunks).1.is_connected = false ∧
        (driveSends send connectedAdapterState chunks).1.client_queue =
          chunks.take 100 ∧
        (driveSends send connectedAdapterState chunks).2 =
          [.providerError "Queue full: disconnecting."] := by
      intro send henq hovf
      have := boundedSendRun_overflow send henq hovf chunks connectedAdapterState
        rfl rfl (by simp [connectedAdapterState]) (by simpa [connectedAdapterState] using h)
      simpa [connectedAdapterState] using this
    exact ⟨hrun sonioxSend sonioxSend_enqueue sonioxSend_overflow,
      hrun deepgramSend deepgramSend_enqueue deepgramSend_overflow,
      hrun assemblySend assemblySend_enqueue assemblySend_overflow,
      hrun openaiSend openaiSend_enqueue openaiSend_overflow,
      hrun speechmaticsSend speechmaticsSend_enqueue speechmaticsSend_overflow,
      hrun azureSend azureSend_enqueue azureSend_overflow⟩
  · intro bs
    exact googleSendRun bs []

/-- C2 counterexample.  Feeding 101 chunks to the Google adapter with none
drained: all 101 are accepted onto the unbounded inbound queue, the adapter
stays connected, and no overflow error is raised — so "for every adapter, the
inbound audio queue is bounded at capacity 100 and enqueuing beyond the 100th
chunk disconnects the adapter and raises" is false at the Google adapter. -/
theorem claim2_google_counterexample :
    (googleDriveSends googleConnectedState
        (List.replicate 101 (Data.bytes [0]))).1.is_connected = true ∧
    (googleDriveSends googleConnectedState
        (List.replicate 101 (Data.bytes [0]))).2 = [] ∧
    (googleDriveSends googleConnectedState
        (List.replicate 101 (Data.bytes [0]))).1.audio_chunk_queue =
      some (List.replicate 101 (some [0])) := by
  decide

/-- C2 witness: the amended theorem applied to 101 concrete chunks, Soniox
conjunct shown. -/
theorem claim2_witness :
    100 < (List.replicate 101 (Data.bytes [0])).length ∧
    ((driveSends sonioxSend connectedAdapterState
        (List.replicate 101 (Data.bytes [0]))).1.is_connected = false ∧
      (driveSends sonioxSend connectedAdapterState
        (List.replicate 101 (Data.bytes [0]))).1.client_queue =
        (List.replicate 101 (Data.bytes [0])).take 100 ∧
      (driveSends sonioxSend connectedAdapterState
        (List.replicate 101 (Data.bytes [0]))).2 =
        [.providerError "Queue full: disconnecting."]) :=
  ⟨by decide,
    (claim2_bounded_queue_overflow.1 (List.replicate 101 (Data.bytes [0]))
      (by decide)).1⟩


theorem sonioxReach_error_none (cfg : ProviderConfig) :
    ∀ s : AdapterState, SonioxReach cfg s → s.error = none := by
  intro s h
  induction h with
  | init => rfl
  | connect p hprev ih =>
    simp only [sonioxConnect]
    split
    · exact ih
    · split
      · exact ih
      · simpa using ih
  | send d hprev ih =>
    simp only [sonioxSend]
    split
    · exact ih
    · split
      · simpa using ih
      · simpa [websocketDisconnect] using ih
  | send_end hprev ih =>
    simp only [sonioxSend]
    split
    · exact ih
    · split
      · simpa using ih
      · simpa [websocketDisconnect] using ih
  | receive hprev ih => simpa [adapterReceive] using ih
  | disconnect hprev ih => simpa [websocketDisconnect] using ih
  | recv_data parts hprev ih => simpa [sonioxPutData] using ih
  | recv_error e hprev ih => simpa [sonioxHandleError, websocketDisconnect] using ih


/-- C3 (amended).  Error gating of `send()`:
* Deepgram, AssemblyAI, OpenAI, Speechmatics and Azure re-raise the stored
  error itself, unchanged, without touching the queue or the transport;
* Soniox's `send()` has no stored-error check, but no Soniox operation ever
  stores an error, so the stored-error case cannot arise on a reachable
  Soniox state;
* Google raises a NEW `ProviderError` that embeds the stored error's text
  ("GoogleProvider send failed: provider is <stored text>") rather than the
  stored error itself (see the counterexample);
* with no stored error, a never-connected adapter gets "Not connected."
  (Google: "...provider is not connected");
* otherwise the chunk is enqueued onto the inbound queue. -/
theorem claim3_send_error_gating :
    (∀ (s : AdapterState) (d : Data) (e : VErr), s.error = some e →
      deepgramSend s d = (s, some e) ∧
      assemblySend s d = (s, some e) ∧
      openaiSend s d = (s, some e) ∧
      speechmaticsSend s d = (s, some e) ∧
      azureSend s d = (s, some e)) ∧
    (∀ (cfg : ProviderConfig) (s : AdapterState),
      SonioxReach cfg s → s.error = none) ∧
    (∀ (s : GoogleState) (d : Data) (e : VErr), s.error = some e →
      s.is_connected = false →
      googleSend s d = (s, some (.providerError
        ("GoogleProvider send failed: provider is " ++ e.str)))) ∧
    (∀ (s : AdapterState) (d : Data), s.is_connected = false → s.error = none →
      sonioxSend s d = (s, some (.providerError "Not connected.")) ∧
      deepgramSend s d = (s, some (.providerError "Not connected."))) ∧
    (∀ (s : GoogleState) (d : Data), s.is_connected = false → s.error = none →
      googleSend s d = (s, some (.providerError
        "GoogleProvider send failed: provider is not connected"))) ∧
    (∀ (s : AdapterState) (d : Data), s.is_connected = true → s.error = none →
      s.client_queue.length < 100 →
      sonioxSend s d = ({ s with client_queue := s.client_queue ++ [d] }, none) ∧
      deepgramSend s d =
        ({ s with client_queue := s.client_queue ++ [d] }, none)) := by
  refine ⟨?_, sonioxReach_error_none, ?_, ?_, ?_, ?_⟩
  · intro s d e he
    refine ⟨?_, ?_, ?_, ?_, ?_⟩ <;>
      simp [deepgramSend, assemblySend, openaiSend, speechmaticsSend, azureSend, he]
  · intro s d e he hc
    simp [googleSend, googleSendReason, he, hc]
  · intro s d hc he
    exact ⟨by simp [sonioxSend, hc], by simp [deepgramSend, he, hc]⟩
  · intro s d hc he
    simp [googleSend, googleSendReason, he, hc]
  · intro s d hc he hlt
    exact ⟨sonioxSend_enqueue s d hc he hlt, deepgramSend_enqueue s d hc he hlt⟩

/-- C3 counterexample.  After a Google streaming failure the adapter holds the
stored error "Google streaming error: boom", but the next `send()` raises a
different, freshly built `ProviderError` wrapping that text — not the stored
error itself, contradicting "raises that same stored error". -/
theorem claim3_google_counterexample :
    (googleStreamFailure "boom" googleConnectedState).error =
      some (.providerError "Google streaming error: boom") ∧
    (googleSend (googleStreamFailure "boom" googleConnectedState)
        (.bytes [1])).2 =
      some (.providerError
        "GoogleProvider send failed: provider is Google streaming error: boom") ∧
    (googleSend (googleStreamFailure "boom" googleConnectedState)
        (.bytes [1])).2 ≠
      (googleStreamFailure "boom" googleConnectedState).error := by
  refine ⟨rfl, by decide, by decide⟩

/-- C3 witness: the amended theorem applied to a Deepgram adapter holding a
stored error. -/
theorem claim3_witness :
    ({ initAdapterState with
        error := some (.providerError "boom") } : AdapterState).error =
      some (.providerError "boom") ∧
    (deepgramSend { initAdapterState with error := some (.providerError "boom") }
        (.bytes [0]) =
      ({ initAdapterState with error := some (.providerError "boom") },
        some (.providerError "boom")) ∧
    assemblySend { initAdapterState with error := some (.providerError "boom") }
        (.bytes [0]) =
      ({ initAdapterState with error := some (.providerError "boom") },
        some (.providerError "boom")) ∧
    openaiSend { initAdapterState with error := some (.providerError "boom") }
        (.bytes [0]) =
      ({ initAdapterState with error := some (.providerError "boom") },
        some (.providerError "boom")) ∧
    speechmaticsSend
        { initAdapterState with error := some (.providerError "boom") }
        (.bytes [0]) =
      ({ initAdapterState with error := some (.providerError "boom") },
        some (.providerError "boom")) ∧
    azureSend { initAdapterState with error := some (.providerError "boom") }
        (.bytes [0]) =
      ({ initAdapterState with error := some (.providerError "boom") },
        some (.providerError "boom"))) :=
  ⟨rfl, claim3_send_error_gating.1
    { initAdapterState with error := some (.providerError "boom") }
    (.bytes [0]) (.providerError "boom") rfl⟩


theorem connectPhase_acc (l : List (String × ConnectOutcome)) :
    ∀ acc : List (String × Bool) × List Msg,
      l.foldl
        (fun acc r =>
          match r.2 with
          | .ok => (acc.1 ++ [(r.1, true)], acc.2)
          | .fail e => (acc.1 ++ [(r.1, false)], acc.2 ++ [error_message r.1 e.str]))
        acc =
      (acc.1 ++ (connectPhase l).1, acc.2 ++ (connectPhase l).2) := by
  induction l with
  | nil => intro acc; simp [connectPhase]
  | cons r rest ih =>
    intro acc
    match hr : r.2 with
    | .ok =>
      simp only [List.foldl_cons, hr, ih]
      have hthis : connectPhase (r :: rest) =
          (((r.1, true) :: (connectPhase rest).1), (connectPhase rest).2) := by
        simp only [connectPhase, List.foldl_cons, hr]
        have := ih ([(r.1, true)], [])
        simp only [connectPhase] at this
        simp [this]
      simp [hthis, List.append_assoc]
    | .fail e =>
      simp only [List.foldl_cons, hr, ih]
      have hthis : connectPhase (r :: rest) =
          (((r.1, false) :: (connectPhase rest).1),
            error_message r.1 e.str :: (connectPhase rest).2) := by
        simp only [connectPhase, List.foldl_cons, hr]
        have := ih ([(r.1, false)], [error_message r.1 e.str])
        simp only [connectPhase] at this
        simp [this]
      simp [hthis, List.append_assoc]

theorem connectPhase_spec (l : List (String × ConnectOutcome)) :
    connectPhase l =
      (l.map (fun r => (r.1,
          match r.2 with | .ok => true | .fail _ => false)),
        l.filterMap (fun r =>
          match r.2 with
          | .ok => none
          | .fail e => some (error_message r.1 e.str))) := by
  induction l with
  | nil => rfl
  | cons r rest ih =>
    match hr : r.2 with
    | .ok =>
      simp only [connectPhase, List.foldl_cons, hr]
      have := connectPhase_acc rest ([(r.1, true)], [])
      simp only [connectPhase] at this ih
      simp [this, ih, hr]
    | .fail e =>
      simp only [connectPhase, List.foldl_cons, hr]
      have := connectPhase_acc rest ([(r.1, false)], [error_message r.1 e.str])
      simp only [connectPhase] at this ih
      simp [this, ih, hr]

theorem fanOutFrame_acc (l : List (String × Bool × Option VErr)) :
    ∀ acc : List String × List Msg,
      l.foldl
        (fun acc a =>
          if a.2.1 then
            match a.2.2 with
            | none => (acc.1 ++ [a.1], acc.2)
            | some e =>
              (acc.1 ++ [a.1], acc.2 ++
                [error_message a.1
                  ("Error while sending message to provider: " ++ e.str)])
          else acc)
        acc =
      (acc.1 ++ (fanOutFrame l).1, acc.2 ++ (fanOutFrame l).2) := by
  induction l with
  | nil => intro acc; simp [fanOutFrame]
  | cons a rest ih =>
    intro acc
    by_cases hc : a.2.1
    · match he : a.2.2 with
      | none =>
        simp only [List.foldl_cons, hc, if_true, he, ih]
        have hthis : fanOutFrame (a :: rest) =
            ((a.1 :: (fanOutFrame rest).1), (fanOutFrame rest).2) := by
          simp only [fanOutFrame, List.foldl_cons, hc, if_true, he]
          have := ih ([a.1], [])
          simp only [fanOutFrame] at this
          simp [this]
        simp [hthis, List.append_assoc]
      | some e =>
        simp only [List.foldl_cons, hc, if_true, he, ih]
        have hthis : fanOutFrame (a :: rest) =
            ((a.1 :: (fanOutFrame rest).1),
              error_message a.1
                  ("Error while sending message to provider: " ++ e.str) ::
                (fanOutFrame rest).2) := by
          simp only [fanOutFrame, List.foldl_cons, hc, if_true, he]
          have := ih ([a.1],
            [error_message a.1 ("Error while sending message to provider: " ++ e.str)])
          simp only [fanOutFrame] at this
          simp [this]
        simp [hthis, List.append_assoc]
    · simp only [List.foldl_cons, hc, if_false, ih]
      have hthis : fanOutFrame (a :: rest) = fanOutFrame rest := by
        simp [fanOutFrame, List.foldl_cons, hc]
      simp [hthis]


/-- C4.  Failure isolation in `compare_websocket`:
* a `connect()` failure of one requested provider contributes exactly one
  error `Message` tagged with that provider, registers it as not connected,
  and leaves the processing of every other requested provider unchanged
  (the phases for the surrounding sublists compose unchanged around it);
* if no other requested provider has the same name, the messages tagged with
  the failing provider are exactly that one error `Message`;
* in the main loop, a `send()`/`send_end()` failure on one connected adapter
  contributes exactly one error `Message` for it while the frame is still
  delivered to every other connected adapter. -/
theorem claim4_failure_isolation :
    (∀ (l1 l2 : List (String × ConnectOutcome)) (p : String) (e : VErr),
      connectPhase (l1 ++ (p, .fail e) :: l2) =
        ((connectPhase l1).1 ++ [(p, false)] ++ (connectPhase l2).1,
          (connectPhase l1).2 ++ [error_message p e.str] ++
            (connectPhase l2).2)) ∧
    (∀ (l1 l2 : List (String × ConnectOutcome)) (p : String) (e : VErr),
      (∀ r ∈ l1 ++ l2, r.1 ≠ p) →
      ((connectPhase (l1 ++ (p, .fail e) :: l2)).2.filter
          (fun m => m.provider = some p)) =
        [error_message p e.str]) ∧
    (∀ (l1 l2 : List (String × Bool × Option VErr)) (p : String) (e : VErr),
      fanOutFrame (l1 ++ (p, true, some e) :: l2) =
        ((fanOutFrame l1).1 ++ [p] ++ (fanOutFrame l2).1,
          (fanOutFrame l1).2 ++
            [error_message p
              ("Error while sending message to provider: " ++ e.str)] ++
            (fanOutFrame l2).2)) := by
  have hconn : ∀ (l1 l2 : List (String × ConnectOutcome)) (p : String) (e : VErr),
      connectPhase (l1 ++ (p, .fail e) :: l2) =
        ((connectPhase l1).1 ++ [(p, false)] ++ (connectPhase l2).1,
          (connectPhase l1).2 ++ [error_message p e.str] ++
            (connectPhase l2).2) := by
    intro l1 l2 p e
    simp only [connectPhase_spec, List.map_append, List.filterMap_append,
      List.map_cons, List.filterMap_cons]
    simp [List.append_assoc]
  refine ⟨hconn, ?_, ?_⟩
  · intro l1 l2 p e hne
    rw [hconn]
    simp only [List.filter_append]
    have hl : ∀ l : List (String × ConnectOutcome), (∀ r ∈ l, r.1 ≠ p) →
        (connectPhase l).2.filter (fun m => m.provider = some p) = [] := by
      intro l hl
      rw [List.filter_eq_nil_iff]
      intro m hm
      rw [connectPhase_spec] at hm
      simp only [List.mem_filterMap] at hm
      obtain ⟨r, hrmem, hr⟩ := hm
      match hro : r.2 with
      | .ok => rw [hro] at hr; exact absurd hr (by simp)
      | .fail e' =>
        rw [hro] at hr
        simp only [Option.some.injEq] at hr
        subst hr
        simp [error_message, hl r hrmem]
    rw [hl l1 (fun r hr => hne r (List.mem_append_left _ hr)),
      hl l2 (fun r hr => hne r (List.mem_append_right _ hr))]
    simp [error_message]
  · intro l1 l2 p e
    have h1 := fanOutFrame_acc ((p, true, some e) :: l2)
      ((fanOutFrame l1).1, (fanOutFrame l1).2)
    have h2 : fanOutFrame (l1 ++ (p, true, some e) :: l2) =
        ((l1 ++ (p, true, some e) :: l2).foldl
          (fun acc a =>
            if a.2.1 then
              match a.2.2 with
              | none => (acc.1 ++ [a.1], acc.2)
              | some e =>
                (acc.1 ++ [a.1], acc.2 ++
                  [error_message a.1
                    ("Error while sending message to provider: " ++ e.str)])
            else acc)
          ([], [])) := rfl
    rw [h2, List.foldl_append]
    have h3 : (l1.foldl
        (fun acc a =>
          if a.2.1 then
            match a.2.2 with
            | none => (acc.1 ++ [a.1], acc.2)
            | some e =>
              (acc.1 ++ [a.1], acc.2 ++
                [error_message a.1
                  ("Error while sending message to provider: " ++ e.str)])
          else acc)
        ([], [])) = fanOutFrame l1 := rfl
    rw [h3]
    rw [show ((fanOutFrame l1) :
        List String × List Msg) = ((fanOutFrame l1).1, (fanOutFrame l1).2) from rfl]
    rw [h1]
    have h4 := fanOutFrame_acc l2
      ((fanOutFrame l1).1 ++ [p],
        (fanOutFrame l1).2 ++
          [error_message p ("Error while sending message to provider: " ++ e.str)])
    have h5 : fanOutFrame ((p, true, some e) :: l2) =
        (p :: (fanOutFrame l2).1,
          error_message p ("Error while sending message to provider: " ++ e.str) ::
            (fanOutFrame l2).2) := by
      simp only [fanOutFrame, List.foldl_cons, if_true]
      have := fanOutFrame_acc l2 ([p],
        [error_message p ("Error while sending message to provider: " ++ e.str)])
      simp only [fanOutFrame] at this
      simp [this]
    rw [h5]
    simp [List.append_assoc]


/-- C4 witness: isolation applied to a concrete session requesting soniox,
azure (failing) and deepgram. -/
theorem claim4_witness :
    (∀ r ∈ ([("soniox", ConnectOutcome.ok)] ++ [("deepgram", ConnectOutcome.ok)]),
      r.1 ≠ "azure") ∧
    ((connectPhase ([("soniox", ConnectOutcome.ok)] ++
        ("azure", ConnectOutcome.fail (.providerError "boom")) ::
        [("deepgram", ConnectOutcome.ok)])).2.filter
        (fun m => m.provider = some "azure")) =
      [error_message "azure" (VErr.providerError "boom").str] :=
  ⟨by decide,
    claim4_failure_isolation.2.1 [("soniox", ConnectOutcome.ok)]
      [("deepgram", ConnectOutcome.ok)] "azure" (.providerError "boom")
      (by decide)⟩


theorem streamRun_inv (name : String) (evs : List StreamEvent) :
    ∀ st : ForwardState,
      (streamRun name st evs).delivered ++
        (streamRun name st evs).hostq.map (stampProvider name) =
      st.delivered ++ (st.hostq ++ producedMsgs evs).map (stampProvider name) := by
  induction evs with
  | nil => intro st; simp [streamRun, producedMsgs]
  | cons e rest ih =>
    intro st
    match e with
    | .produce m =>
      simp only [streamRun, List.foldl_cons]
      have := ih (streamStep name st (.produce m))
      simp only [streamRun] at this
      rw [this]
      simp [streamStep, producedMsgs, List.append_assoc]
    | .forward =>
      simp only [streamRun, List.foldl_cons]
      have := ih (streamStep name st .forward)
      simp only [streamRun] at this
      rw [this]
      simp [streamStep, drainLoop_eq, producedMsgs, List.append_assoc]

/-- C5 (amended).  The adapters DO set a `provider` field themselves: every
data or error `Message` an adapter's receiver loop enqueues carries
`config.service.provider_name` (see the counterexample to "never sets").
The orchestrator's forwarding task then unconditionally overwrites the field
with the identifier under which the adapter was registered, so every `Message`
delivered to the client carries the registered identifier. -/
theorem claim5_provider_stamping :
    (∀ (cfg : ProviderConfig) (parts : List Part),
      (adapterDataMessage cfg parts).provider = some cfg.service.provider_name) ∧
    (∀ (cfg : ProviderConfig) (e : VErr),
      (adapterErrorMessage cfg e).provider = some cfg.service.provider_name) ∧
    (∀ (name : String) (m : Msg),
      (stampProvider name m).provider = some name) ∧
    (∀ (name : String) (st : ForwardState) (evs : List StreamEvent),
      ∀ m ∈ (streamRun name st evs).delivered,
        m ∈ st.delivered ∨ m.provider = some name) := by
  refine ⟨fun _ _ => rfl, fun _ _ => rfl, fun _ _ => rfl, ?_⟩
  intro name st evs
  induction evs generalizing st with
  | nil => intro m hm; exact Or.inl hm
  | cons e rest ih =>
    intro m hm
    simp only [streamRun, List.foldl_cons] at hm
    have := ih (streamStep name st e) m (by simpa [streamRun] using hm)
    rcases this with hmem | hp
    · match e with
      | .produce m' =>
        simp only [streamStep] at hmem
        exact Or.inl hmem
      | .forward =>
        simp only [streamStep] at hmem
        rcases List.mem_append.mp hmem with h1 | h2
        · exact Or.inl h1
        · rcases List.mem_map.mp h2 with ⟨m0, _, hm0⟩
          exact Or.inr (by rw [← hm0]; rfl)
    · exact Or.inr hp

/-- C5 counterexample.  The data `Message` the Soniox receiver loop builds
already has its `provider` key set (to `config.service.provider_name`), so
"the adapter never sets the `provider` field itself" is false. -/
theorem claim5_counterexample :
    (adapterDataMessage exampleSonioxConfig []).provider = some "soniox" ∧
    (adapterDataMessage exampleSonioxConfig []).provider ≠ none := by
  exact ⟨rfl, by decide⟩

/-- C5 witness: stamping applied to one produced-then-forwarded message. -/
theorem claim5_witness :
    stampProvider "soniox" (adapterDataMessage exampleSonioxConfig []) ∈
      (streamRun "soniox" {}
        [StreamEvent.produce (adapterDataMessage exampleSonioxConfig []),
          StreamEvent.forward]).delivered ∧
    (stampProvider "soniox" (adapterDataMessage exampleSonioxConfig []) ∈
        (({} : ForwardState)).delivered ∨
      (stampProvider "soniox"
          (adapterDataMessage exampleSonioxConfig [])).provider =
        some "soniox") :=
  ⟨by decide,
    claim5_provider_stamping.2.2.2 "soniox" {}
      [StreamEvent.produce (adapterDataMessage exampleSonioxConfig []),
        StreamEvent.forward]
      (stampProvider "soniox" (adapterDataMessage exampleSonioxConfig []))
      (by decide)⟩

/-- C6.  FIFO per provider stream: after any interleaving of the adapter
producing Messages and the forwarding task running, the Messages delivered to
the client followed by the still-pending ones equal the produced Messages in
production order (each stamped with the provider name on delivery) — the
forwarder never reorders, drops, or merges within one provider's stream. -/
theorem claim6_fifo_delivery :
    ∀ (name : String) (evs : List StreamEvent),
      (streamRun name {} evs).delivered ++
        (streamRun name {} evs).hostq.map (stampProvider name) =
      (producedMsgs evs).map (stampProvider name) := by
  intro name evs
  have := streamRun_inv name evs {}
  simpa using this


/-- C7.  Frame property of the session's `ProviderParams`: the orchestrator
never mutates the shared value (`registerAdapter` and `mutateAdapterParams`
leave `sessionParams` untouched), and because `get_provider_config` hands
every adapter `deepcopy(params)`, a mutation an adapter performs on its own
copy (Google and Azure rewrite language codes on `self.config.params`) is
invisible in the params of every other adapter of the session. -/
theorem claim7_params_frame :
    (∀ (st : SessionStore) (name : String)
        (f : ProviderParams → ProviderParams),
      (mutateAdapterParams st name f).sessionParams = st.sessionParams) ∧
    (∀ (st : SessionStore) (name : String),
      (registerAdapter st name).sessionParams = st.sessionParams) ∧
    (∀ (st : SessionStore) (name other : String)
        (f : ProviderParams → ProviderParams),
      other ≠ name →
      adapterParamsOf (mutateAdapterParams st name f) other =
        adapterParamsOf st other) := by
  refine ⟨fun _ _ _ => rfl, fun _ _ => rfl, ?_⟩
  intro st name other f hne
  simp only [adapterParamsOf, mutateAdapterParams]
  induction st.adapterCells with
  | nil => rfl
  | cons c rest ih =>
    simp only [List.map_cons]
    by_cases hcname : c.1 = name
    · rw [if_pos hcname]
      have hco : ¬ c.1 = other := by
        rw [hcname]; exact fun h => hne h.symm
      rw [List.find?_cons_of_neg _ (by simp [hco]),
        List.find?_cons_of_neg _ (by simp [hco])]
      exact ih
    · rw [if_neg hcname]
      by_cases hco : c.1 = other
      · rw [List.find?_cons_of_pos _ (by simp [hco]),
          List.find?_cons_of_pos _ (by simp [hco])]
      · rw [List.find?_cons_of_neg _ (by simp [hco]),
          List.find?_cons_of_neg _ (by simp [hco])]
        exact ih

/-- C7 witness: Google's transcription-language rewrite applied to Google's
own cell leaves the session value and the Soniox adapter's cell unchanged. -/
theorem claim7_witness :
    ("soniox" : String) ≠ "google" ∧
    adapterParamsOf
        (mutateAdapterParams
          { sessionParams := { language_hints := ["en"] },
            adapterCells := [("google", { language_hints := ["en"] }),
              ("soniox", { language_hints := ["en"] })] }
          "google"
          (fun p =>
            ((google_update_transcription_languages [("en", "en-US")] p).toOption).getD p))
        "soniox" =
      adapterParamsOf
        { sessionParams := { language_hints := ["en"] },
          adapterCells := [("google", { language_hints := ["en"] }),
            ("soniox", { language_hints := ["en"] })] }
        "soniox" :=
  ⟨by decide,
    claim7_params_frame.2.2
      { sessionParams := { language_hints := ["en"] },
        adapterCells := [("google", { language_hints := ["en"] }),
          ("soniox", { language_hints := ["en"] })] }
      "google" "soniox"
      (fun p =>
        ((google_update_transcription_languages [("en", "en-US")] p).toOption).getD p)
      (by decide)⟩

/-- C8.  `receive()` never blocks and never raises: it is a total drain of
the outbound queue returning every buffered Message in order and leaving the
queue empty, and on a freshly constructed (never connected) adapter —
including Google, whose results queue exists from `__init__` — it returns the
empty list. -/
theorem claim8_receive_nonblocking :
    (∀ s : AdapterState,
      (adapterReceive s).1 = s.host_queue ∧
      (adapterReceive s).2 = { s with host_queue := [] }) ∧
    adapterReceive initAdapterState = ([], initAdapterState) ∧
    (∀ g : GoogleState,
      (googleReceive g).1 = g.results_queue ∧
      (googleReceive g).2 = { g with results_queue := [] }) ∧
    googleReceive initGoogleState = ([], initGoogleState) := by
  refine ⟨?_, ?_, ?_, ?_⟩
  · intro s
    constructor <;> simp [adapterReceive, drainLoop_eq]
  · simp [adapterReceive, drainLoop_eq, initAdapterState]
  · intro g
    constructor <;> simp [googleReceive, drainLoop_eq]
  · simp [googleReceive, drainLoop_eq, initGoogleState]

/-- C9.  `disconnect()` is total (the sources catch every cleanup failure, so
it never raises), safe on a never-connected adapter, and calling it twice
produces no error and no duplicate `Message`: for the websocket adapters and
Azure the second call leaves the state untouched and the outbound queue is
never modified; for Google the second call leaves the results queue exactly
as the first left it (one `None` sentinel, no `Message`). -/
theorem claim9_disconnect_idempotent :
    (∀ s : AdapterState,
      websocketDisconnect (websocketDisconnect s) = websocketDisconnect s ∧
      (websocketDisconnect s).host_queue = s.host_queue ∧
      azureDisconnect (azureDisconnect s) = azureDisconnect s ∧
      (azureDisconnect s).host_queue = s.host_queue) ∧
    websocketDisconnect initAdapterState = initAdapterState ∧
    (∀ g : GoogleState,
      (googleDisconnect (googleDisconnect g)).results_queue =
        (googleDisconnect g).results_queue ∧
      (googleDisconnect g).results_queue = [none]) := by
  refine ⟨?_, rfl, ?_⟩
  · intro s
    refine ⟨rfl, rfl, rfl, rfl⟩
  · intro g
    exact ⟨rfl, rfl⟩

/-- C10.  In `DeepgramProvider._recv_loop` the conversion
`int(start_s * 1000) if start_s is None else None` is attempted exactly in
the branch where the vendor time is absent; whenever word processing succeeds
(in particular whenever the word carries start and end times), the produced
`Part` has `start_ms = None` and `end_ms = None` — a Deepgram `Part` never
carries a numeric millisecond value derived from a vendor-supplied time. -/
theorem claim10_deepgram_timestamps :
    ∀ (diarize first_word is_final : Bool) (w : DGWord) (part : Part),
      deepgram_process_word diarize first_word is_final w = .ok part →
      part.start_ms = none ∧ part.end_ms = none := by
  intro diarize first_word is_final w part h
  unfold deepgram_process_word at h
  cases hs : w.start with
  | none => rw [hs] at h; exact absurd h (by simp)
  | some s0 =>
    cases he : w.end_time with
    | none => rw [hs, he] at h; exact absurd h (by simp)
    | some e0 =>
      cases hp : w.punctuated_word with
      | none => rw [hs, he, hp] at h; exact absurd h (by simp)
      | some t0 =>
        rw [hs, he, hp] at h
        simp only [Except.ok.injEq] at h
        rw [← h]
        simp [make_part]

/-- C10 witness: a word carrying start and end times produces a Part whose
`start_ms` and `end_ms` are absent. -/
theorem claim10_witness :
    deepgram_process_word true true true
        { punctuated_word := some "Hi", start := some 1, end_time := some 2,
          confidence := some 1, speaker := some 0 } =
      .ok (make_part "Hi" true (some (.int 1)) none none none (some 1) none) ∧
    ((make_part "Hi" true (some (.int 1)) none none none (some 1) none).start_ms =
        none ∧
      (make_part "Hi" true (some (.int 1)) none none none (some 1) none).end_ms =
        none) :=
  ⟨by decide,
    claim10_deepgram_timestamps true true true
      { punctuated_word := some "Hi", start := some 1, end_time := some 2,
        confidence := some 1, speaker := some 0 }
      (make_part "Hi" true (some (.int 1)) none none none (some 1) none)
      (by decide)⟩

end SC
